import Mathlib

/-
Verification of the SDL2_core library (src/include/SDL2_core.hpp) against its
natural-language specification.

The header defines one class, SDL2_Core::Sdl, owning four resources in
declaration order: Base (SDL + TTF init handles), Window, Renderer, and a
std::map from strings to textures (textures_map). We embed the class shallowly:

  - Calls into the external SDL2/SDL_ttf library are modelled by an oracle
    structure Env whose fields say, for each call, whether it succeeds and
    with which result (surface / texture / font handles are numeric ids).
  - Every call made to the external library is recorded as an Event; a
    method produces an Outcome: an Except result (C++ exceptions become
    Except.error), the post state of the object, and the trace of calls.
  - std::map is embedded as an association list kept sorted by key
    (std::map iterates and stores in key order); emplace is a sorted insert,
    find is mapFind.
  - The C++ float angle field is only ever passed through to SDL_RenderCopyEx,
    never computed with, so it is carried as an Int.
-/

namespace SDL2Core

/-- Embeds SDL_Color (four Uint8 channels; the wrapper never computes with
them, only passes them through). -/
structure SDL_Color where
  r : Nat
  g : Nat
  b : Nat
  a : Nat
deriving DecidableEq, Repr

/-- Embeds SDL_Rect. -/
structure SDL_Rect where
  x : Int
  y : Int
  w : Int
  h : Int
deriving DecidableEq, Repr

/-- Embeds SDL_Point. -/
structure SDL_Point where
  x : Int
  y : Int
deriving DecidableEq, Repr

/-- Embeds SDL_RendererFlip. -/
inductive RendererFlip
  | flipNone
  | flipHorizontal
  | flipVertical
  | flipBoth
deriving DecidableEq, Repr

/-- Ids standing for SDL_Surface pointers returned by the external library. -/
abbrev SurfaceId := Nat

/-- Ids standing for SDL_Texture pointers returned by the external library. -/
abbrev TextureId := Nat

/-- Ids standing for TTF_Font pointers returned by the external library. -/
abbrev FontId := Nat

/-- Value of the SDL_WINDOW_SHOWN flag from the external SDL2 header. -/
def SDL_WINDOW_SHOWN : Int := 4

/-- Value of SDL_WINDOWPOS_UNDEFINED from the external SDL2 header: the
x and y arguments one passes to SDL_CreateWindow to request the library
default window position. -/
def SDL_WINDOWPOS_UNDEFINED : Int := 0x1FFF0000

/-- One call made to the external SDL2 / SDL_ttf library. A trace of these
is recorded by every embedded operation; the event is recorded whether or
not the call succeeds (it marks the attempt). -/
inductive Event
  | sdlInitCall
  | ttfInitCall
  | createWindowCall (title : String) (x y w h flags : Int)
  | createRendererCall
  | loadBMPCall (path : String)
  | createTextureCall (s : SurfaceId)
  | freeSurface (s : SurfaceId)
  | openFontCall (path : String) (ptsize : Int)
  | renderTextCall (f : FontId) (text : String) (col : SDL_Color)
  | sizeTextCall (f : FontId) (text : String)
  | closeFont (f : FontId)
  | setRenderDrawColorCall (col : SDL_Color)
  | renderFillRectCall (dst : Option SDL_Rect)
  | renderCopyExCall (t : TextureId) (src dst : Option SDL_Rect)
      (angle : Int) (flip : RendererFlip)
  | renderClearCall
  | renderPresentCall
  | destroyTexture (t : TextureId)
  | destroyRenderer
  | destroyWindow
  | ttfQuit
  | sdlQuit
deriving DecidableEq, Repr

/-- The distinguishable error conditions (each std::runtime_error thrown by
the header, identified by its message). -/
inductive Err
  | initSDL
  | initTTF
  | windowCreation
  | rendererCreation
  | bmpLoad
  | textureCreation
  | fontLoad
  | textRender
  | textSize
  | duplicateText
  | textureNotFound
  | renderCopy
  | drawColor
  | renderFill
  | renderClear
deriving DecidableEq, Repr

/-- Oracle for the external library calls an already-constructed Sdl object
makes: each field gives the result of the corresponding SDL / TTF call. -/
structure Env where
  loadBMP : String → Option SurfaceId
  createTextureFromSurface : SurfaceId → Option TextureId
  openFont : String → Int → Option FontId
  renderTextBlended : FontId → String → SDL_Color → Option SurfaceId
  sizeText : FontId → String → Option (Int × Int)
  setDrawColorOk : SDL_Color → Bool
  fillRectOk : Option SDL_Rect → Bool
  copyExOk : TextureId → Option SDL_Rect → Option SDL_Rect → Int → RendererFlip → Bool
  clearOk : Bool

/-- The mutable state of an Sdl object: its textures_map member
(std::map from string key to owned texture), embedded as an association
list sorted by key, the way std::map stores it. -/
structure SdlState where
  textures_map : List (String × TextureId)
deriving DecidableEq, Repr

/-- Embeds std::map::find on the stored sequence: the first (and, under the
map invariant, only) entry with the given key, or none. -/
def mapFind (m : List (String × TextureId)) (k : String) : Option TextureId :=
  match m with
  | [] => none
  | (k1, v1) :: rest => if k = k1 then some v1 else mapFind rest k

/-- Sorted insertion into the association list: what std::map::emplace does
to the stored sequence (the call sites only reach emplace when the key is
absent, so the equal-key case cannot arise there). -/
def mapInsert (m : List (String × TextureId)) (k : String) (v : TextureId) :
    List (String × TextureId) :=
  match m with
  | [] => [(k, v)]
  | (k1, v1) :: rest =>
    if k < k1 then (k, v) :: (k1, v1) :: rest
    else (k1, v1) :: mapInsert rest k v

/-- Result of one method call on the Sdl object: the returned value or the
thrown error, the object state after the call, and the external calls made. -/
structure Outcome (α : Type) where
  result : Except Err α
  state : SdlState
  trace : List Event

/-- Embeds Sdl::load_texture(const std::string&).
If the path is already a key of textures_map, return at once (no external
call). Otherwise SDL_LoadBMP, then SDL_CreateTextureFromSurface (via
create_texture), then emplace into the map; the intermediate surface is
freed on every exit path after its creation. -/
def load_texture (env : Env) (st : SdlState) (path : String) : Outcome Unit :=
  match mapFind st.textures_map path with
  | some _ => ⟨Except.ok (), st, []⟩
  | none =>
    match env.loadBMP path with
    | none => ⟨Except.error Err.bmpLoad, st, [Event.loadBMPCall path]⟩
    | some s =>
      match env.createTextureFromSurface s with
      | none =>
        ⟨Except.error Err.textureCreation, st,
          [Event.loadBMPCall path, Event.createTextureCall s, Event.freeSurface s]⟩
      | some t =>
        ⟨Except.ok (), ⟨mapInsert st.textures_map path t⟩,
          [Event.loadBMPCall path, Event.createTextureCall s, Event.freeSurface s]⟩

/-- Embeds Sdl::load_texture(const std::vector&): applies the single-path
load_texture to each entry in order; the first thrown error aborts the loop
and propagates. -/
def load_texture_vec (env : Env) (st : SdlState) (paths : List String) : Outcome Unit :=
  match paths with
  | [] => ⟨Except.ok (), st, []⟩
  | p :: rest =>
    let o := load_texture env st p
    match o.result with
    | Except.error e => ⟨Except.error e, o.state, o.trace⟩
    | Except.ok _ =>
      let o2 := load_texture_vec env o.state rest
      ⟨o2.result, o2.state, o.trace ++ o2.trace⟩

/-- Embeds Sdl::load_text. If the text is already a key of textures_map,
throw at once. Otherwise TTF_OpenFont, TTF_RenderText_Blended,
SDL_CreateTextureFromSurface, TTF_SizeText (with the still-open font), then
emplace and return the rect; the font and surface are scope-owned and are
released at every exit, in reverse construction order, after the body. -/
def load_text (env : Env) (st : SdlState) (text : String) (col : SDL_Color)
    (pos : SDL_Point) (path_to_font : String) (ptsize : Int) : Outcome SDL_Rect :=
  match mapFind st.textures_map text with
  | some _ => ⟨Except.error Err.duplicateText, st, []⟩
  | none =>
    match env.openFont path_to_font ptsize with
    | none =>
      ⟨Except.error Err.fontLoad, st, [Event.openFontCall path_to_font ptsize]⟩
    | some f =>
      match env.renderTextBlended f text col with
      | none =>
        ⟨Except.error Err.textRender, st,
          [Event.openFontCall path_to_font ptsize,
           Event.renderTextCall f text col, Event.closeFont f]⟩
      | some s =>
        match env.createTextureFromSurface s with
        | none =>
          ⟨Except.error Err.textureCreation, st,
            [Event.openFontCall path_to_font ptsize,
             Event.renderTextCall f text col, Event.createTextureCall s,
             Event.freeSurface s, Event.closeFont f]⟩
        | some t =>
          match env.sizeText f text with
          | none =>
            ⟨Except.error Err.textSize, st,
              [Event.openFontCall path_to_font ptsize,
               Event.renderTextCall f text col, Event.createTextureCall s,
               Event.sizeTextCall f text, Event.destroyTexture t,
               Event.freeSurface s, Event.closeFont f]⟩
          | some (w, h) =>
            ⟨Except.ok ⟨pos.x, pos.y, w, h⟩,
             ⟨mapInsert st.textures_map text t⟩,
             [Event.openFontCall path_to_font ptsize,
              Event.renderTextCall f text col, Event.createTextureCall s,
              Event.sizeTextCall f text, Event.freeSurface s, Event.closeFont f]⟩

/-- Embeds the RenderData struct: the draw request. The col_or_tex variant
(std::variant with SDL_Color first, std::string second) becomes a Sum. -/
structure RenderData where
  srcrect : Option SDL_Rect
  dstrect : Option SDL_Rect
  col_or_tex : Sum SDL_Color String
  angle : Int
  flip : RendererFlip
  text : Option String
  ptsize : Option Int
deriving DecidableEq, Repr

/-- Embeds Sdl::set_draw_color: SDL_SetRenderDrawColor, throwing when the
call reports failure. -/
def set_draw_color (env : Env) (st : SdlState) (col : SDL_Color) : Outcome Unit :=
  if env.setDrawColorOk col then
    ⟨Except.ok (), st, [Event.setRenderDrawColorCall col]⟩
  else
    ⟨Except.error Err.drawColor, st, [Event.setRenderDrawColorCall col]⟩

/-- Embeds Sdl::clear: set_draw_color then SDL_RenderClear. -/
def clear (env : Env) (st : SdlState) (col : SDL_Color) : Outcome Unit :=
  let o := set_draw_color env st col
  match o.result with
  | Except.error e => ⟨Except.error e, o.state, o.trace⟩
  | Except.ok _ =>
    if env.clearOk then
      ⟨Except.ok (), o.state, o.trace ++ [Event.renderClearCall]⟩
    else
      ⟨Except.error Err.renderClear, o.state, o.trace ++ [Event.renderClearCall]⟩

/-- Embeds Sdl::draw. When col_or_tex holds a string, look the key up in
textures_map (throwing if absent) and SDL_RenderCopyEx with the optional
src and dst rects, angle and flip; when it holds a color, set_draw_color
then SDL_RenderFillRect with the optional dst rect. -/
def draw (env : Env) (st : SdlState) (data : RenderData) : Outcome Unit :=
  match data.col_or_tex with
  | Sum.inr key =>
    match mapFind st.textures_map key with
    | none => ⟨Except.error Err.textureNotFound, st, []⟩
    | some t =>
      if env.copyExOk t data.srcrect data.dstrect data.angle data.flip then
        ⟨Except.ok (), st,
          [Event.renderCopyExCall t data.srcrect data.dstrect data.angle data.flip]⟩
      else
        ⟨Except.error Err.renderCopy, st,
          [Event.renderCopyExCall t data.srcrect data.dstrect data.angle data.flip]⟩
  | Sum.inl col =>
    let o := set_draw_color env st col
    match o.result with
    | Except.error e => ⟨Except.error e, o.state, o.trace⟩
    | Except.ok _ =>
      if env.fillRectOk data.dstrect then
        ⟨Except.ok (), o.state, o.trace ++ [Event.renderFillRectCall data.dstrect]⟩
      else
        ⟨Except.error Err.renderFill, o.state, o.trace ++ [Event.renderFillRectCall data.dstrect]⟩

/-- Embeds Sdl::present: SDL_RenderPresent, no return value, no error. -/
def present (st : SdlState) : Outcome Unit :=
  ⟨Except.ok (), st, [Event.renderPresentCall]⟩

/-- Oracle for the external calls made during construction of the Sdl
object (SDL_Init, TTF_Init, SDL_CreateWindow, SDL_CreateRenderer). -/
structure InitEnv where
  sdlInitOk : Bool
  ttfInitOk : Bool
  createWindow : String → Int → Int → Int → Int → Int → Bool
  createRendererOk : Bool

/-- Result of running the Sdl constructor: the constructed state or the
thrown error, plus the trace of external calls (including the destructor
calls of already-constructed members when a later member initializer
throws, per C++ unwinding). -/
structure InitOutcome where
  result : Except Err SdlState
  trace : List Event

/-- Embeds the Sdl constructor. Member initializers run in declaration
order: base (SDL_Init then TTF_Init), win (SDL_CreateWindow with the title,
literal x = 0 and y = 0, the given w and h, and SDL_WINDOW_SHOWN), ren
(SDL_CreateRenderer). A throw from a later initializer destroys the
already-constructed members in reverse order. A throw from inside the Base
constructor destroys nothing (Base was not yet fully constructed). -/
def mkSdl (env : InitEnv) (title : String) (w h : Int) : InitOutcome :=
  if ¬ env.sdlInitOk then
    ⟨Except.error Err.initSDL, [Event.sdlInitCall]⟩
  else if ¬ env.ttfInitOk then
    ⟨Except.error Err.initTTF, [Event.sdlInitCall, Event.ttfInitCall]⟩
  else if ¬ env.createWindow title 0 0 w h SDL_WINDOW_SHOWN then
    ⟨Except.error Err.windowCreation,
      [Event.sdlInitCall, Event.ttfInitCall,
       Event.createWindowCall title 0 0 w h SDL_WINDOW_SHOWN,
       Event.ttfQuit, Event.sdlQuit]⟩
  else if ¬ env.createRendererOk then
    ⟨Except.error Err.rendererCreation,
      [Event.sdlInitCall, Event.ttfInitCall,
       Event.createWindowCall title 0 0 w h SDL_WINDOW_SHOWN,
       Event.createRendererCall,
       Event.destroyWindow, Event.ttfQuit, Event.sdlQuit]⟩
  else
    ⟨Except.ok ⟨[]⟩,
      [Event.sdlInitCall, Event.ttfInitCall,
       Event.createWindowCall title 0 0 w h SDL_WINDOW_SHOWN,
       Event.createRendererCall]⟩

/-- Embeds the implicit Sdl destructor: members are destroyed in reverse
declaration order (base, win, ren, textures_map declared in that order), so
first every owned texture of textures_map, then the renderer, then the
window, and last the Base destructor, which calls TTF_Quit then SDL_Quit. -/
def destroy_trace (st : SdlState) : List Event :=
  (st.textures_map.map fun e => Event.destroyTexture e.2) ++
    [Event.destroyRenderer, Event.destroyWindow, Event.ttfQuit, Event.sdlQuit]

/-
Helper lemmas, shared by the claim theorems below.
-/

/-- Inserting a key that is absent makes it found, with the inserted value. -/
theorem mapFind_mapInsert_self (m : List (String × TextureId)) (k : String)
    (v : TextureId) (h : mapFind m k = none) :
    mapFind (mapInsert m k v) k = some v := by
  induction m with
  | nil => simp [mapInsert, mapFind]
  | cons hd tl ih =>
    obtain ⟨k1, v1⟩ := hd
    by_cases hk : k = k1
    · simp [mapFind, hk] at h
    · simp only [mapFind, if_neg hk] at h
      by_cases hlt : k < k1
      · simp [mapInsert, hlt, mapFind]
      · simp [mapInsert, hlt, mapFind, hk, ih h]

/-- Inserting one key leaves the lookup of every other key unchanged. -/
theorem mapFind_mapInsert_ne (m : List (String × TextureId)) (k : String)
    (v : TextureId) (k2 : String) (h : k2 ≠ k) :
    mapFind (mapInsert m k v) k2 = mapFind m k2 := by
  induction m with
  | nil => simp [mapInsert, mapFind, h]
  | cons hd tl ih =>
    obtain ⟨k1, v1⟩ := hd
    by_cases hlt : k < k1
    · simp [mapInsert, hlt, mapFind, h]
    · simp [mapInsert, hlt, mapFind, ih]

/-- A cached path makes load_texture return at once: success, state
untouched, no external call. -/
theorem load_texture_cached (env : Env) (st : SdlState) (path : String)
    (t : TextureId) (h : mapFind st.textures_map path = some t) :
    load_texture env st path = ⟨Except.ok (), st, []⟩ := by
  simp [load_texture, h]

/-- A failing load_texture leaves the state untouched, and its path was not
a cache key before the call. -/
theorem load_texture_err_state (env : Env) (st : SdlState) (path : String)
    (e : Err) (h : (load_texture env st path).result = Except.error e) :
    (load_texture env st path).state = st ∧ mapFind st.textures_map path = none := by
  cases hf : mapFind st.textures_map path with
  | some t => simp [load_texture, hf] at h
  | none =>
    cases hb : env.loadBMP path with
    | none => simp [load_texture, hf, hb]
    | some s =>
      cases hc : env.createTextureFromSurface s with
      | none => simp [load_texture, hf, hb, hc]
      | some t => simp [load_texture, hf, hb, hc] at h

/-- A successful load_texture leaves its path present in the cache. -/
theorem load_texture_ok_mem (env : Env) (st : SdlState) (path : String)
    (h : (load_texture env st path).result = Except.ok ()) :
    ∃ t, mapFind (load_texture env st path).state.textures_map path = some t := by
  cases hf : mapFind st.textures_map path with
  | some t => exact ⟨t, by simp [load_texture, hf]⟩
  | none =>
    cases hb : env.loadBMP path with
    | none => simp [load_texture, hf, hb] at h
    | some s =>
      cases hc : env.createTextureFromSurface s with
      | none => simp [load_texture, hf, hb, hc] at h
      | some t =>
        exact ⟨t, by simp [load_texture, hf, hb, hc, mapFind_mapInsert_self _ _ _ hf]⟩

/-- The only bitmap-decode attempt a single load_texture call can make is
for its own path. -/
theorem load_texture_trace_paths (env : Env) (st : SdlState) (path q : String)
    (h : Event.loadBMPCall q ∈ (load_texture env st path).trace) : q = path := by
  cases hf : mapFind st.textures_map path with
  | some t => simp [load_texture, hf] at h
  | none =>
    cases hb : env.loadBMP path with
    | none => simp [load_texture, hf, hb] at h; exact h
    | some s =>
      cases hc : env.createTextureFromSurface s with
      | none => simp [load_texture, hf, hb, hc] at h; exact h
      | some t => simp [load_texture, hf, hb, hc] at h; exact h

/-- Unfolding of the batch loader on a head entry that loads successfully. -/
theorem load_texture_vec_cons_ok (env : Env) (st : SdlState) (p : String)
    (rest : List String) (h : (load_texture env st p).result = Except.ok ()) :
    load_texture_vec env st (p :: rest) =
      ⟨(load_texture_vec env (load_texture env st p).state rest).result,
       (load_texture_vec env (load_texture env st p).state rest).state,
       (load_texture env st p).trace ++
         (load_texture_vec env (load_texture env st p).state rest).trace⟩ := by
  conv_lhs => rw [load_texture_vec]
  simp only [h]

/-- Unfolding of the batch loader on a head entry that fails: the error
propagates and the rest of the batch is not attempted. -/
theorem load_texture_vec_cons_err (env : Env) (st : SdlState) (p : String)
    (rest : List String) (e : Err)
    (h : (load_texture env st p).result = Except.error e) :
    load_texture_vec env st (p :: rest) =
      ⟨Except.error e, (load_texture env st p).state, (load_texture env st p).trace⟩ := by
  conv_lhs => rw [load_texture_vec]
  simp only [h]

/-- A cached text key makes load_text throw the duplicate-text error at
once, whatever the other arguments: state untouched, no external call. -/
theorem load_text_dup (env : Env) (st : SdlState) (text : String)
    (col : SDL_Color) (pos : SDL_Point) (fp : String) (ps : Int)
    (t : TextureId) (h : mapFind st.textures_map text = some t) :
    load_text env st text col pos fp ps = ⟨Except.error Err.duplicateText, st, []⟩ := by
  simp [load_text, h]

/-- Full description of a successful load_text: the calls made in order,
the insertion performed, and the returned rect. -/
theorem load_text_success (env : Env) (st : SdlState) (text : String)
    (col : SDL_Color) (pos : SDL_Point) (fp : String) (ps : Int)
    (f : FontId) (s : SurfaceId) (t : TextureId) (w h : Int)
    (hf : mapFind st.textures_map text = none)
    (ho : env.openFont fp ps = some f)
    (hr : env.renderTextBlended f text col = some s)
    (hc : env.createTextureFromSurface s = some t)
    (hs : env.sizeText f text = some (w, h)) :
    load_text env st text col pos fp ps =
      ⟨Except.ok ⟨pos.x, pos.y, w, h⟩, ⟨mapInsert st.textures_map text t⟩,
       [Event.openFontCall fp ps, Event.renderTextCall f text col,
        Event.createTextureCall s, Event.sizeTextCall f text,
        Event.freeSurface s, Event.closeFont f]⟩ := by
  simp [load_text, hf, ho, hr, hc, hs]

/-- A failing load_text leaves the state untouched. -/
theorem load_text_err_state (env : Env) (st : SdlState) (text : String)
    (col : SDL_Color) (pos : SDL_Point) (fp : String) (ps : Int) (e : Err)
    (h : (load_text env st text col pos fp ps).result = Except.error e) :
    (load_text env st text col pos fp ps).state = st := by
  cases hf : mapFind st.textures_map text with
  | some t => simp [load_text, hf]
  | none =>
    cases ho : env.openFont fp ps with
    | none => simp [load_text, hf, ho]
    | some f =>
      cases hr : env.renderTextBlended f text col with
      | none => simp [load_text, hf, ho, hr]
      | some s =>
        cases hc : env.createTextureFromSurface s with
        | none => simp [load_text, hf, ho, hr, hc]
        | some t =>
          cases hs : env.sizeText f text with
          | none => simp [load_text, hf, ho, hr, hc, hs]
          | some wh =>
            obtain ⟨w, h2⟩ := wh
            simp [load_text, hf, ho, hr, hc, hs] at h

/-- A successful load_text leaves its text present in the cache. -/
theorem load_text_ok_mem (env : Env) (st : SdlState) (text : String)
    (col : SDL_Color) (pos : SDL_Point) (fp : String) (ps : Int) (r : SDL_Rect)
    (h : (load_text env st text col pos fp ps).result = Except.ok r) :
    ∃ t, mapFind (load_text env st text col pos fp ps).state.textures_map text = some t := by
  cases hf : mapFind st.textures_map text with
  | some t => simp [load_text, hf] at h
  | none =>
    cases ho : env.openFont fp ps with
    | none => simp [load_text, hf, ho] at h
    | some f =>
      cases hr : env.renderTextBlended f text col with
      | none => simp [load_text, hf, ho, hr] at h
      | some s =>
        cases hc : env.createTextureFromSurface s with
        | none => simp [load_text, hf, ho, hr, hc] at h
        | some t =>
          cases hs : env.sizeText f text with
          | none => simp [load_text, hf, ho, hr, hc, hs] at h
          | some wh =>
            obtain ⟨w, h2⟩ := wh
            exact ⟨t, by simp [load_text, hf, ho, hr, hc, hs,
              mapFind_mapInsert_self _ _ _ hf]⟩

/-
Concrete fixtures used by the witness and counterexample theorems.
-/

/-- A concrete oracle: the bitmap a.bmp decodes to surface 1, every other
bitmap is missing; text rendering succeeds (font 0, surface 2); textures
get id surface + 10; the measured text size is 42 by 7; the drawing
primitives succeed. -/
def envW : Env :=
  ⟨fun p => if p = "a.bmp" then some 1 else none,
   fun s => some (s + 10),
   fun _ _ => some 0,
   fun _ _ _ => some 2,
   fun _ _ => some (42, 7),
   fun _ => true,
   fun _ => true,
   fun _ _ _ _ _ => true,
   true⟩

/-- The state with an empty texture cache. -/
def stEmpty : SdlState := ⟨[]⟩

/-- A state whose cache already holds the key a.bmp (texture id 5). -/
def stA : SdlState := ⟨[("a.bmp", 5)]⟩

/-- A state whose cache already holds the text key hello (texture id 9). -/
def stT : SdlState := ⟨[("hello", 9)]⟩

/-- A concrete color. -/
def colW : SDL_Color := ⟨100, 100, 100, 255⟩

/-- A concrete position. -/
def posW : SDL_Point := ⟨3, 4⟩

/-- A concrete rectangle. -/
def rectW : SDL_Rect := ⟨0, 0, 50, 50⟩

/-
Claim theorems.
-/

/-- Claim C1: for every path that is already a key of the texture cache,
load_texture returns success immediately with no external call (no decode,
no texture creation) and the state, hence the cache, unchanged — so loading
the same path twice yields the same single cached entry. -/
theorem claim1_load_texture_idempotent (env : Env) (st : SdlState)
    (path : String) (t : TextureId)
    (h : mapFind st.textures_map path = some t) :
    load_texture env st path = ⟨Except.ok (), st, []⟩ :=
  load_texture_cached env st path t h

/-- Witness for claim C1 at the concrete cached path a.bmp. -/
theorem claim1_witness :
    load_texture envW stA "a.bmp" = ⟨Except.ok (), stA, []⟩ :=
  claim1_load_texture_idempotent envW stA "a.bmp" 5 rfl

/-- Claim C2: for every text value already a key of the texture cache,
load_text fails with the duplicate-text error whatever the color, position,
font path and point size arguments are — not idempotent, unlike images. -/
theorem claim2_load_text_duplicate (env : Env) (st : SdlState) (text : String)
    (col : SDL_Color) (pos : SDL_Point) (fp : String) (ps : Int)
    (t : TextureId) (h : mapFind st.textures_map text = some t) :
    load_text env st text col pos fp ps = ⟨Except.error Err.duplicateText, st, []⟩ :=
  load_text_dup env st text col pos fp ps t h

/-- Witness for claim C2 at the concrete cached text hello. -/
theorem claim2_witness :
    load_text envW stT "hello" colW posW "f.ttf" 12 =
      ⟨Except.error Err.duplicateText, stT, []⟩ :=
  claim2_load_text_duplicate envW stT "hello" colW posW "f.ttf" 12 9 rfl

/-- Claim C4: a draw request whose union holds a texture key absent from
the cache fails with the texture-not-found error, makes no rendering call
at all (empty trace) and leaves the state unchanged. -/
theorem claim4_draw_missing_texture (env : Env) (st : SdlState)
    (data : RenderData) (key : String)
    (hk : data.col_or_tex = Sum.inr key)
    (h : mapFind st.textures_map key = none) :
    draw env st data = ⟨Except.error Err.textureNotFound, st, []⟩ := by
  simp [draw, hk, h]

/-- Witness for claim C4 at a concrete request naming a key never loaded. -/
theorem claim4_witness :
    draw envW stA
        ⟨none, some rectW, Sum.inr "missing", 0, RendererFlip.flipNone, none, none⟩ =
      ⟨Except.error Err.textureNotFound, stA, []⟩ :=
  claim4_draw_missing_texture envW stA
    ⟨none, some rectW, Sum.inr "missing", 0, RendererFlip.flipNone, none, none⟩
    "missing" rfl rfl

/-- Claim C9: every failing single load is atomic with respect to the
texture cache: whatever the reason a load_texture or load_text call fails
for, the state after the failing call is exactly the state before it
(insertion is the last mutating step of each operation). -/
theorem claim9_failure_atomic (env : Env) (st : SdlState) (path text : String)
    (col : SDL_Color) (pos : SDL_Point) (fp : String) (ps : Int) (e1 e2 : Err)
    (h1 : (load_texture env st path).result = Except.error e1)
    (h2 : (load_text env st text col pos fp ps).result = Except.error e2) :
    (load_texture env st path).state = st ∧
    (load_text env st text col pos fp ps).state = st :=
  ⟨(load_texture_err_state env st path e1 h1).1,
   load_text_err_state env st text col pos fp ps e2 h2⟩

/-- Witness for claim C9: a missing bitmap and a duplicate text, both
failing from the same state, both leaving it untouched. -/
theorem claim9_witness :
    (load_texture envW stT "b.bmp").state = stT ∧
    (load_text envW stT "hello" colW posW "f.ttf" 12).state = stT :=
  claim9_failure_atomic envW stT "b.bmp" "hello" colW posW "f.ttf" 12
    Err.bmpLoad Err.duplicateText rfl rfl

/-- Claim C10: when the union holds a flat color, the srcrect, angle, flip,
text and ptsize fields of the request are irrelevant: two requests with the
same color and the same destination rectangle produce identical outcomes,
and the operations performed are set-the-draw-color followed by a fill of
the (optional) destination rectangle. -/
theorem claim10_color_draw_ignores_extras (env : Env) (st : SdlState)
    (d1 d2 : RenderData) (c : SDL_Color)
    (h1 : d1.col_or_tex = Sum.inl c) (h2 : d2.col_or_tex = Sum.inl c)
    (hd : d1.dstrect = d2.dstrect) :
    draw env st d1 = draw env st d2 ∧
    (env.setDrawColorOk c = true →
      (draw env st d1).trace =
        [Event.setRenderDrawColorCall c, Event.renderFillRectCall d1.dstrect]) := by
  constructor
  · unfold draw
    rw [h1, h2, hd]
  · intro hok
    unfold draw
    rw [h1]
    simp only [set_draw_color, hok, if_true]
    cases hfr : env.fillRectOk d1.dstrect <;> simp

/-- Witness for claim C10: two concrete requests sharing only the color and
destination rectangle, drawn identically. -/
theorem claim10_witness :
    draw envW stA
        ⟨some rectW, some rectW, Sum.inl colW, 30, RendererFlip.flipHorizontal,
         some "x", some 5⟩ =
      draw envW stA
        ⟨none, some rectW, Sum.inl colW, 0, RendererFlip.flipNone, none, none⟩ ∧
    (envW.setDrawColorOk colW = true →
      (draw envW stA
          ⟨some rectW, some rectW, Sum.inl colW, 30, RendererFlip.flipHorizontal,
           some "x", some 5⟩).trace =
        [Event.setRenderDrawColorCall colW, Event.renderFillRectCall (some rectW)]) :=
  claim10_color_draw_ignores_extras envW stA
    ⟨some rectW, some rectW, Sum.inl colW, 30, RendererFlip.flipHorizontal,
     some "x", some 5⟩
    ⟨none, some rectW, Sum.inl colW, 0, RendererFlip.flipNone, none, none⟩
    colW rfl rfl rfl

/-- Claim C3: the batch loader applies the single-path load to each entry
in order and a failure aborts the whole batch there: for paths [A, B, C]
with A succeeding and B failing, the batch fails with the error B failed
with, A is present in the cache afterwards (partial progress retained), B
is absent, and no bitmap decode is ever attempted for C. -/
theorem claim3_batch_abort (env : Env) (st : SdlState) (A B C : String) (e : Err)
    (hA : (load_texture env st A).result = Except.ok ())
    (hB : (load_texture env (load_texture env st A).state B).result = Except.error e)
    (hCA : C ≠ A) (hCB : C ≠ B) :
    (load_texture_vec env st [A, B, C]).result = Except.error e ∧
    (∃ t, mapFind (load_texture_vec env st [A, B, C]).state.textures_map A = some t) ∧
    mapFind (load_texture_vec env st [A, B, C]).state.textures_map B = none ∧
    Event.loadBMPCall C ∉ (load_texture_vec env st [A, B, C]).trace := by
  have herr := load_texture_err_state env (load_texture env st A).state B e hB
  have hmem := load_texture_ok_mem env st A hA
  rw [load_texture_vec_cons_ok env st A [B, C] hA,
    load_texture_vec_cons_err env (load_texture env st A).state B [C] e hB]
  dsimp only
  refine ⟨rfl, ?_, ?_, ?_⟩
  · obtain ⟨t, ht⟩ := hmem
    rw [herr.1]
    exact ⟨t, ht⟩
  · rw [herr.1]
    exact herr.2
  · intro hin
    rcases List.mem_append.mp hin with hca | hcb
    · exact hCA (load_texture_trace_paths env st A C hca)
    · exact hCB (load_texture_trace_paths env (load_texture env st A).state B C hcb)

/-- Witness for claim C3 with the batch [a.bmp, b.bmp, c.bmp] from the
empty cache: a.bmp decodes, b.bmp is missing, c.bmp is never attempted. -/
theorem claim3_witness :
    (load_texture_vec envW stEmpty ["a.bmp", "b.bmp", "c.bmp"]).result =
        Except.error Err.bmpLoad ∧
    (∃ t, mapFind
        (load_texture_vec envW stEmpty ["a.bmp", "b.bmp", "c.bmp"]).state.textures_map
        "a.bmp" = some t) ∧
    mapFind (load_texture_vec envW stEmpty ["a.bmp", "b.bmp", "c.bmp"]).state.textures_map
        "b.bmp" = none ∧
    Event.loadBMPCall "c.bmp" ∉
      (load_texture_vec envW stEmpty ["a.bmp", "b.bmp", "c.bmp"]).trace :=
  claim3_batch_abort envW stEmpty "a.bmp" "b.bmp" "c.bmp" Err.bmpLoad rfl rfl
    (by decide) (by decide)

/-- Claim C8: image paths and text values share the one key space of
textures_map. A string first loaded as text makes a later load_texture of
the same string return success at once with no external call, and a string
first loaded as an image makes a later load_text of the same string fail
with the duplicate-text error although it was never loaded as text. -/
theorem claim8_shared_key_space (env : Env) (st1 st2 : SdlState) (S : String)
    (col : SDL_Color) (pos : SDL_Point) (fp : String) (ps : Int) (r : SDL_Rect)
    (col2 : SDL_Color) (pos2 : SDL_Point) (fp2 : String) (ps2 : Int)
    (hA : (load_text env st1 S col pos fp ps).result = Except.ok r)
    (hB : (load_texture env st2 S).result = Except.ok ())
    (_hfresh : mapFind st2.textures_map S = none) :
    load_texture env (load_text env st1 S col pos fp ps).state S =
      ⟨Except.ok (), (load_text env st1 S col pos fp ps).state, []⟩ ∧
    (load_text env (load_texture env st2 S).state S col2 pos2 fp2 ps2).result =
      Except.error Err.duplicateText := by
  refine ⟨?_, ?_⟩
  · obtain ⟨t, ht⟩ := load_text_ok_mem env st1 S col pos fp ps r hA
    exact load_texture_cached env _ S t ht
  · obtain ⟨t, ht⟩ := load_texture_ok_mem env st2 S hB
    rw [load_text_dup env _ S col2 pos2 fp2 ps2 t ht]

/-- Witness for claim C8 at the concrete string a.bmp, which envW can load
both as a bitmap and as rendered text. -/
theorem claim8_witness :
    load_texture envW (load_text envW stEmpty "a.bmp" colW posW "f.ttf" 12).state "a.bmp" =
      ⟨Except.ok (), (load_text envW stEmpty "a.bmp" colW posW "f.ttf" 12).state, []⟩ ∧
    (load_text envW (load_texture envW stEmpty "a.bmp").state "a.bmp"
        colW posW "g.ttf" 44).result = Except.error Err.duplicateText :=
  claim8_shared_key_space envW stEmpty stEmpty "a.bmp" colW posW "f.ttf" 12
    ⟨3, 4, 42, 7⟩ colW posW "g.ttf" 44 rfl rfl rfl

/-- A concrete construction oracle in which every call succeeds. -/
def envI : InitEnv := ⟨true, true, fun _ _ _ _ _ _ => true, true⟩

/-- Where each kind of event can sit inside the destructor trace: texture
destructions fill the first length-many positions, then the renderer, the
window, and the two subsystem shutdown calls, in that order. -/
theorem destroy_trace_get_cases (l : List (String × TextureId)) (idx : Nat)
    (ev : Event)
    (h : ((l.map fun e => Event.destroyTexture e.2) ++
        [Event.destroyRenderer, Event.destroyWindow, Event.ttfQuit,
         Event.sdlQuit]).get? idx = some ev) :
    (∃ t, ev = Event.destroyTexture t ∧ idx < l.length) ∨
    (ev = Event.destroyRenderer ∧ idx = l.length) ∨
    (ev = Event.destroyWindow ∧ idx = l.length + 1) ∨
    (ev = Event.ttfQuit ∧ idx = l.length + 2) ∨
    (ev = Event.sdlQuit ∧ idx = l.length + 3) := by
  induction l generalizing idx with
  | nil =>
    rcases idx with _ | _ | _ | _ | idx <;> simp_all
  | cons hd tl ih =>
    rcases idx with _ | idx
    · simp only [List.map_cons, List.cons_append, List.get?] at h
      left
      exact ⟨hd.2, by injection h with h2; exact h2.symm, by simp⟩
    · simp only [List.map_cons, List.cons_append, List.get?] at h
      rcases ih idx h with ⟨t, ht, hlt⟩ | ⟨he, hn⟩ | ⟨he, hn⟩ | ⟨he, hn⟩ | ⟨he, hn⟩
      · exact Or.inl ⟨t, ht, by simp; omega⟩
      · exact Or.inr (Or.inl ⟨he, by simp [hn]⟩)
      · exact Or.inr (Or.inr (Or.inl ⟨he, by simp [hn]⟩))
      · exact Or.inr (Or.inr (Or.inr (Or.inl ⟨he, by simp [hn]⟩)))
      · exact Or.inr (Or.inr (Or.inr (Or.inr ⟨he, by simp [hn]⟩)))

/-- Claim C5: in the destructor trace the renderer destruction comes before
the window destruction, which comes before the subsystem shutdown calls
(TTF_Quit then SDL_Quit, last), and every owned texture is destroyed before
the renderer: no destruction event of a component precedes the destruction
of the components depending on it, and the window outlives the renderer. -/
theorem claim5_teardown_order (st : SdlState) (i j k l : Nat)
    (hi : (destroy_trace st).get? i = some Event.destroyRenderer)
    (hj : (destroy_trace st).get? j = some Event.destroyWindow)
    (hk : (destroy_trace st).get? k = some Event.ttfQuit)
    (hl : (destroy_trace st).get? l = some Event.sdlQuit) :
    i < j ∧ j < k ∧ k < l ∧
      ∀ m t, (destroy_trace st).get? m = some (Event.destroyTexture t) → m < i := by
  have hi3 : i = st.textures_map.length := by
    rcases destroy_trace_get_cases st.textures_map i Event.destroyRenderer hi with
      ⟨t, ht, _⟩ | ⟨_, h⟩ | ⟨hbad, _⟩ | ⟨hbad, _⟩ | ⟨hbad, _⟩
    · exact Event.noConfusion ht
    · exact h
    all_goals exact Event.noConfusion hbad
  have hj3 : j = st.textures_map.length + 1 := by
    rcases destroy_trace_get_cases st.textures_map j Event.destroyWindow hj with
      ⟨t, ht, _⟩ | ⟨hbad, _⟩ | ⟨_, h⟩ | ⟨hbad, _⟩ | ⟨hbad, _⟩
    · exact Event.noConfusion ht
    · exact Event.noConfusion hbad
    · exact h
    all_goals exact Event.noConfusion hbad
  have hk3 : k = st.textures_map.length + 2 := by
    rcases destroy_trace_get_cases st.textures_map k Event.ttfQuit hk with
      ⟨t, ht, _⟩ | ⟨hbad, _⟩ | ⟨hbad, _⟩ | ⟨_, h⟩ | ⟨hbad, _⟩
    · exact Event.noConfusion ht
    · exact Event.noConfusion hbad
    · exact Event.noConfusion hbad
    · exact h
    · exact Event.noConfusion hbad
  have hl3 : l = st.textures_map.length + 3 := by
    rcases destroy_trace_get_cases st.textures_map l Event.sdlQuit hl with
      ⟨t, ht, _⟩ | ⟨hbad, _⟩ | ⟨hbad, _⟩ | ⟨hbad, _⟩ | ⟨_, h⟩
    · exact Event.noConfusion ht
    · exact Event.noConfusion hbad
    · exact Event.noConfusion hbad
    · exact Event.noConfusion hbad
    · exact h
  refine ⟨by omega, by omega, by omega, ?_⟩
  intro m t hm
  rcases destroy_trace_get_cases st.textures_map m (Event.destroyTexture t) hm with
    ⟨t2, _, hlt⟩ | ⟨hbad, _⟩ | ⟨hbad, _⟩ | ⟨hbad, _⟩ | ⟨hbad, _⟩
  · omega
  all_goals exact Event.noConfusion hbad

/-- Witness for claim C5 on the one-texture state: texture at position 0,
renderer at 1, window at 2, TTF_Quit at 3, SDL_Quit at 4. -/
theorem claim5_witness :
    1 < 2 ∧ 2 < 3 ∧ 3 < 4 ∧
      ∀ m t, (destroy_trace stA).get? m = some (Event.destroyTexture t) → m < 1 :=
  claim5_teardown_order stA 1 2 3 4 rfl rfl rfl rfl

/-- Claim C6 (amended): on a successful call with an uncached text value,
load_text opens the font, renders the text with blended rendering, converts
the surface to a texture, measures the natural text size with the
still-open font, inserts text mapped to the texture into the cache, and
only then, at scope exit, frees the surface and closes the font; it returns
the rect at the given position with the measured width and height. -/
theorem claim6_load_text_steps (env : Env) (st : SdlState) (text : String)
    (col : SDL_Color) (pos : SDL_Point) (fp : String) (ps : Int)
    (f : FontId) (s : SurfaceId) (t : TextureId) (w h : Int)
    (hf : mapFind st.textures_map text = none)
    (ho : env.openFont fp ps = some f)
    (hr : env.renderTextBlended f text col = some s)
    (hc : env.createTextureFromSurface s = some t)
    (hs : env.sizeText f text = some (w, h)) :
    load_text env st text col pos fp ps =
      ⟨Except.ok ⟨pos.x, pos.y, w, h⟩, ⟨mapInsert st.textures_map text t⟩,
       [Event.openFontCall fp ps, Event.renderTextCall f text col,
        Event.createTextureCall s, Event.sizeTextCall f text,
        Event.freeSurface s, Event.closeFont f]⟩ :=
  load_text_success env st text col pos fp ps f s t w h hf ho hr hc hs

/-- Witness for claim C6 at a concrete successful text load. -/
theorem claim6_witness :
    load_text envW stEmpty "hi" colW posW "f.ttf" 12 =
      ⟨Except.ok ⟨3, 4, 42, 7⟩, ⟨mapInsert stEmpty.textures_map "hi" 12⟩,
       [Event.openFontCall "f.ttf" 12, Event.renderTextCall 0 "hi" colW,
        Event.createTextureCall 2, Event.sizeTextCall 0 "hi",
        Event.freeSurface 2, Event.closeFont 0]⟩ :=
  claim6_load_text_steps envW stEmpty "hi" colW posW "f.ttf" 12 0 2 12 42 7
    rfl rfl rfl rfl rfl

/-- Counterexample to claim C6 as stated: in the trace of a successful
load_text call the single font-close call comes strictly after the size
measurement call, so the claimed step order (convert the surface, close the
font, measure the text size) does not hold on the code. -/
theorem claim6_counterexample :
    Event.closeFont 0 ∈ (load_text envW stEmpty "hi" colW posW "f.ttf" 12).trace ∧
    Event.sizeTextCall 0 "hi" ∈ (load_text envW stEmpty "hi" colW posW "f.ttf" 12).trace ∧
    (load_text envW stEmpty "hi" colW posW "f.ttf" 12).trace.count (Event.closeFont 0) = 1 ∧
    ¬ ((load_text envW stEmpty "hi" colW posW "f.ttf" 12).trace.indexOf
          (Event.closeFont 0) <
        (load_text envW stEmpty "hi" colW posW "f.ttf" 12).trace.indexOf
          (Event.sizeTextCall 0 "hi")) := by
  decide

/-- Claim C7 (amended): the constructor requests the window with the given
width and height at the fixed position x = 0, y = 0, and fails with the
window-creation error exactly when the handle SDL_CreateWindow returns is
null. -/
theorem claim7_window_creation (env : InitEnv) (title : String) (w h : Int)
    (h1 : env.sdlInitOk = true) (h2 : env.ttfInitOk = true) :
    Event.createWindowCall title 0 0 w h SDL_WINDOW_SHOWN ∈ (mkSdl env title w h).trace ∧
    ((mkSdl env title w h).result = Except.error Err.windowCreation ↔
      env.createWindow title 0 0 w h SDL_WINDOW_SHOWN = false) := by
  cases hw : env.createWindow title 0 0 w h SDL_WINDOW_SHOWN
  · simp [mkSdl, h1, h2, hw]
  · cases hr : env.createRendererOk <;> simp [mkSdl, h1, h2, hw, hr]

/-- Witness for claim C7 at a concrete all-succeeding construction. -/
theorem claim7_witness :
    Event.createWindowCall "t" 0 0 800 600 SDL_WINDOW_SHOWN ∈
        (mkSdl envI "t" 800 600).trace ∧
    ((mkSdl envI "t" 800 600).result = Except.error Err.windowCreation ↔
      envI.createWindow "t" 0 0 800 600 SDL_WINDOW_SHOWN = false) :=
  claim7_window_creation envI "t" 800 600 rfl rfl

/-- Counterexample to claim C7 as stated: the construction requests the
window at x = 0, y = 0 and never at the library default position
SDL_WINDOWPOS_UNDEFINED, and 0 is not that default-position value. -/
theorem claim7_counterexample :
    Event.createWindowCall "t" 0 0 800 600 SDL_WINDOW_SHOWN ∈
        (mkSdl envI "t" 800 600).trace ∧
    Event.createWindowCall "t" SDL_WINDOWPOS_UNDEFINED SDL_WINDOWPOS_UNDEFINED
        800 600 SDL_WINDOW_SHOWN ∉ (mkSdl envI "t" 800 600).trace ∧
    (0 : Int) ≠ SDL_WINDOWPOS_UNDEFINED := by
  decide

end SDL2Core
